import Mathlib

/-!
Verification development for the `boltradar` repository analysis edge
functions.  The repository ships two near-duplicate implementations of the
same Deno edge function (here called version 0 and version 1); where they
differ both are embedded, with a `_v0` / `_v1` suffix.  Pure decision logic
(commit-pattern analysis, hackathon eligibility, AI-response normalization,
verdict composition) is embedded directly; platform builtins (`JSON.parse`,
`fetch`, `Date` parsing) are modelled at their interface:

* JavaScript numbers are modelled as exact rationals (`ℚ`) where fractional
  values can arise and as `ℕ`/`ℤ` where the code only ever produces
  integers.  The float literal `0.3` is modelled as `3/10`.
* `new Date(s).getTime()` is modelled by carrying the parsed timestamp in
  milliseconds (an `Int`) directly; `getHours` is modelled in UTC, the
  timezone of the Deno edge runtime.
* `JSON.parse` of the cleaned AI text is modelled by an `Option Json`
  argument: `some j` when parsing the cleaned response text succeeds with
  value `j`, `none` when the HTTP call failed, returned no text, or parsing
  threw.  Every JSON value is a possible parse result, so quantifying over
  `Option Json` covers every raw response text and every call failure.
-/

/-- A parsed JSON value, the result type of the platform builtin
`JSON.parse` (duplicate object keys are collapsed by the parser, so object
field lists are assumed key-unique). -/
inductive Json where
  | null : Json
  | bool (b : Bool) : Json
  | num (q : ℚ) : Json
  | str (s : String) : Json
  | arr (elems : List Json) : Json
  | obj (fields : List (String × Json)) : Json

/-- First binding of key `k` in an object field list (keys are unique). -/
def lookupField : List (String × Json) → String → Option Json
  | [], _ => none
  | (k', v) :: rest, k => if k' = k then some v else lookupField rest k

/-- JavaScript property read `j[k]` on a parsed JSON value: a value on
objects that have the key, otherwise absent (`none` models `undefined`,
which is also what `hasOwnProperty` reports as missing). -/
def Json.getField : Json → String → Option Json
  | .obj fs, k => lookupField fs k
  | _, _ => none

/-- Property read defaulting to `null` for the absent case (never reached on
the paths where the code has already checked `hasOwnProperty`). -/
def Json.getD (j : Json) (k : String) : Json :=
  (j.getField k).getD .null

/-- JavaScript property write `j[k] = v` on an object: replaces the value of
an existing key in place, preserving field order. -/
def Json.setField : Json → String → Json → Json
  | .obj fs, k, v => .obj (fs.map fun p => if p.1 = k then (p.1, v) else p)
  | j, _, _ => j

/-- `Array.isArray` on a property read (false on `undefined`). -/
def optIsArr : Option Json → Bool
  | some (.arr _) => true
  | _ => false

/-- `typeof x === "number"` on a property read (false on `undefined`). -/
def optIsNum : Option Json → Bool
  | some (.num _) => true
  | _ => false

/-- `['high', 'medium', 'low'].includes(x)` on a property read: true exactly
when the value is one of the three confidence strings. -/
def confValid : Option Json → Bool
  | some (.str s) => s = "high" ∨ s = "medium" ∨ s = "low"
  | _ => false

/-- The `requiredFields.every(field => parsedAnalysis.hasOwnProperty(field))`
check of `analyzeWithGemini`: all five schema fields are present.  A
non-object parse result (string, number, array, `null`) has none of them,
matching JavaScript (`null` even throws, which the surrounding `try` catches
into the same fallback path). -/
def hasAllFive (j : Json) : Bool :=
  (j.getField "summary").isSome && (j.getField "likelihood").isSome &&
  (j.getField "keyFindings").isSome && (j.getField "recommendations").isSome &&
  (j.getField "confidence").isSome

/-- Decimal digit character. -/
def digitChar (n : Nat) : Char :=
  Char.ofNat (48 + n % 10)

/-- Integer part rendered as decimal digits, for `String(n)` on the integer
counters interpolated into template strings. -/
def natToDec (n : Nat) : String :=
  toString n

mutual
/-- Model of the JavaScript `String(v)` coercion on a parsed JSON value.
Number rendering is a placeholder (exact only for integral values, and never
reached on any path a claim depends on: the code applies `String` only to
values that failed a `typeof number` or `Array.isArray` test). -/
def jsToString : Json → String
  | .null => "null"
  | .bool true => "true"
  | .bool false => "false"
  | .num q => if q.den = 1 then toString q.num else toString q.num ++ "/" ++ toString q.den
  | .str s => s
  | .arr xs => jsToStringElems xs
  | .obj _ => "[object Object]"
/-- `Array.prototype.toString`: elements joined with commas, `null` rendered
as the empty string. -/
def jsToStringElems : List Json → String
  | [] => ""
  | [.null] => ""
  | [x] => jsToString x
  | .null :: xs => "," ++ jsToStringElems xs
  | x :: xs => jsToString x ++ "," ++ jsToStringElems xs
end

/-- Leading decimal digits of a character list, if any. -/
def decDigitsVal (cs : List Char) : Option Nat :=
  let ds := cs.takeWhile fun c => c.isDigit
  if ds.isEmpty then none
  else some (ds.foldl (fun a c => 10 * a + (c.toNat - 48)) 0)

/-- Model of the JavaScript `parseInt(s)` (radix 10): skip leading
whitespace, optional sign, then the longest digit prefix; `none` models
`NaN` (no digits).  Hexadecimal prefixes are not modelled; no analyzed path
depends on them. -/
def jsParseInt (s : String) : Option Int :=
  let cs := s.data.dropWhile fun c => c = ' ' ∨ c = '\t' ∨ c = '\n' ∨ c = '\r'
  match cs with
  | '-' :: rest => (decDigitsVal rest).map fun n => -(n : Int)
  | '+' :: rest => (decDigitsVal rest).map fun n => (n : Int)
  | _ => (decDigitsVal cs).map fun n => (n : Int)

/-- Lower-casing used for the commit-message scans
(`message.toLowerCase()`), mapped characterwise. -/
def lowerString (s : String) : String :=
  ⟨s.data.map Char.toLower⟩

/-- `String.prototype.includes`: substring containment. -/
def containsSubstr (hay needle : String) : Bool :=
  decide (needle.data <:+: hay.data)

/-- One GitHub commit as consumed by the analyzer: the `GitHubCommit` fields
that the code reads.  `dateMs` carries `new Date(commit.commit.author.date)
.getTime()`, the author timestamp in milliseconds since the epoch;
`verified` is `commit.commit.verification.verified`. -/
structure Commit where
  sha : String
  dateMs : Int
  message : String
  verified : Bool
deriving DecidableEq

/-- The signal bundle returned by `analyzeCommitPatterns`.  Version 0 names
the last field `githubVerifiedPercentage` and version 1 names it
`verificationPercentage`; the computation is identical. -/
structure Patterns where
  rapidCommits : Nat
  filePatterns : List String
  timePatterns : List String
  verifiedCommits : Nat
  totalCommits : Nat
  verificationPercentage : Nat

/-- Adjacent-pair scan of the sorted timestamp list: the loop
`for (i = 1; i < n; i++) if (t[i] - t[i-1] < 300000) rapid++`. -/
def countRapidPairs : List Int → Nat
  | [] => 0
  | [_] => 0
  | a :: b :: rest =>
      (if b - a < 300000 then 1 else 0) + countRapidPairs (b :: rest)

/-- `Math.round((verified / total) * 100)`, with `0` when there are no
commits.  In exact arithmetic `round(100 * v / t) = ⌊(200 * v + t) / (2 * t)⌋`,
which is the natural-number division used here. -/
def roundPercentage (v t : Nat) : Nat :=
  if 0 < t then (200 * v + t) / (2 * t) else 0

/-- `analyzeCommitPatterns` (part_000 lines 181-238, part_001 lines 126-183;
the two copies differ only in one finding literal, transcribed from
part_000, and in the name of the percentage field).  The timestamps are
sorted ascending (`commitTimes.sort((a, b) => a - b)`) before the
rapid-commit scan; the off-hours test `night > total * 0.3` is written with
both sides scaled by 10 so it stays in exact integer arithmetic. -/
def analyzeCommitPatterns (commits : List Commit) : Patterns :=
  let verifiedCommits := (commits.filter fun c => c.verified).length
  let totalCommits := commits.length
  let verificationPercentage := roundPercentage verifiedCommits totalCommits
  let commitTimes := List.insertionSort (· ≤ ·) (commits.map fun c => c.dateMs)
  let rapidCommits := countRapidPairs commitTimes
  let packageJsonCommits := (commits.filter fun c =>
    containsSubstr (lowerString c.message) "package.json" ||
    containsSubstr (lowerString c.message) "dependencies").length
  let filePatterns :=
    (if 0 < packageJsonCommits then ["Package.json modifications detected"] else []) ++
    (if 5 < rapidCommits then ["Multiple rapid file changes"] else []) ++
    (if 70 < verificationPercentage then ["High GitHub verification rate pattern"] else [])
  let commitHours := commits.map fun c => (c.dateMs.fdiv 3600000).fmod 24
  let nightCommits := (commitHours.filter fun h => 22 ≤ h ∨ h ≤ 6).length
  let timePatterns :=
    (if 10 < rapidCommits then ["Frequent rapid commits detected"] else []) ++
    (if 3 * totalCommits < 10 * nightCommits then ["Unusual late-night development patterns"] else [])
  ⟨rapidCommits, filePatterns, timePatterns, verifiedCommits, totalCommits,
    verificationPercentage⟩

/-- Civil date (year, month, day) from days since 1970-01-01, by the
standard Gregorian era decomposition; total on all inputs, exact for all
timestamps the code meets (years 1970-9999). -/
def civilFromDays (z : Int) : Nat × Nat × Nat :=
  let a := (z + 719468).toNat
  let era := a / 146097
  let doe := a % 146097
  let yoe := (doe - doe / 1460 + doe / 36524 - doe / 146096) / 365
  let y := yoe + era * 400
  let doy := doe - (365 * yoe + yoe / 4 - yoe / 100)
  let mp := (5 * doy + 2) / 153
  let d := doy - (153 * mp + 2) / 5 + 1
  let m := if mp < 10 then mp + 3 else mp - 9
  (if m ≤ 2 then y + 1 else y, m, d)

/-- Days since 1970-01-01 of a civil date, inverse of `civilFromDays`; used
to state the cutoff constants written as date literals in the source. -/
def daysFromCivil (y m d : Nat) : Nat :=
  let y' := if m ≤ 2 then y - 1 else y
  let era := y' / 400
  let yoe := y' % 400
  let doy := (153 * (if 2 < m then m - 3 else m + 9) + 2) / 5 + d - 1
  let doe := yoe * 365 + yoe / 4 - yoe / 100 + doy
  era * 146097 + doe - 719468

/-- Three-letter weekday name, Sunday-indexed. -/
def weekdayName : Nat → String
  | 0 => "Sun"
  | 1 => "Mon"
  | 2 => "Tue"
  | 3 => "Wed"
  | 4 => "Thu"
  | 5 => "Fri"
  | _ => "Sat"

/-- Three-letter month name, January = 1 (the default is never reached:
`civilFromDays` yields months 1-12). -/
def monthName : Nat → String
  | 1 => "Jan"
  | 2 => "Feb"
  | 3 => "Mar"
  | 4 => "Apr"
  | 5 => "May"
  | 6 => "Jun"
  | 7 => "Jul"
  | 8 => "Aug"
  | 9 => "Sep"
  | 10 => "Oct"
  | 11 => "Nov"
  | _ => "Dec"

/-- Two-digit zero-padded day of month. -/
def pad2 (n : Nat) : String :=
  ⟨[digitChar (n / 10 % 10), digitChar (n % 10)]⟩

/-- Four-digit year (exact for years 1000-9999, the only range the code
meets). -/
def year4 (y : Nat) : String :=
  ⟨[digitChar (y / 1000 % 10), digitChar (y / 100 % 10),
    digitChar (y / 10 % 10), digitChar (y % 10)]⟩

/-- Weekday index of a day count since the epoch (1970-01-01 was a
Thursday, index 4). -/
def weekdayIndex (days : Int) : Nat :=
  ((days.fmod 7 + 4).fmod 7).toNat

/-- Model of `new Date(ms).toDateString()` in UTC: the fixed 15-character
`"Www Mmm DD YYYY"` rendering, e.g. `"Thu Jan 01 1970"`. -/
def toDateString (t : Int) : String :=
  weekdayName (weekdayIndex (t.fdiv 86400000)) ++ " " ++
  monthName (civilFromDays (t.fdiv 86400000)).2.1 ++ " " ++
  pad2 (civilFromDays (t.fdiv 86400000)).2.2 ++ " " ++
  year4 (civilFromDays (t.fdiv 86400000)).1

/-- Result of `checkHackathonEligibility`. -/
structure EligibilityResult where
  isEligible : Bool
  reason : String

/-- `new Date('2025-05-31T00:00:00.000Z').getTime()`, the version-0 cutoff. -/
def hackathonStartMs_v0 : Int :=
  (daysFromCivil 2025 5 31 : Int) * 86400000

/-- `new Date('2024-12-01T00:00:00.000Z').getTime()`, the version-1 cutoff. -/
def hackathonStartMs_v1 : Int :=
  (daysFromCivil 2024 12 1 : Int) * 86400000

/-- `checkHackathonEligibility` of part_000 (lines 392-407), on the parsed
creation instant in milliseconds.  `createdDate < hackathonStartDate`
compares the millisecond values of the two `Date` objects. -/
def checkHackathonEligibility_v0 (createdMs : Int) : EligibilityResult :=
  if createdMs < hackathonStartMs_v0 then
    ⟨false, "Repository created on " ++ toDateString createdMs ++
      ", before hackathon start date (May 31, 2025)"⟩
  else
    ⟨true, "Repository created on " ++ toDateString createdMs ++
      ", from/after hackathon start date (May 31, 2025)"⟩

/-- `checkHackathonEligibility` of part_001 (lines 335-350): same rule with
the December 2024 cutoff, but the eligible branch returns a fixed reason
string that names neither date. -/
def checkHackathonEligibility_v1 (createdMs : Int) : EligibilityResult :=
  if createdMs < hackathonStartMs_v1 then
    ⟨false, "Repository created on " ++ toDateString createdMs ++
      ", before hackathon submission period (December 1, 2024)"⟩
  else
    ⟨true, "Repository meets hackathon timeline requirements"⟩

example : daysFromCivil 2025 5 31 = 20239 := by decide
example : daysFromCivil 2024 12 1 = 20058 := by decide
example : civilFromDays 20239 = (2025, 5, 31) := by decide
example : civilFromDays 20058 = (2024, 12, 1) := by decide
example : civilFromDays 0 = (1970, 1, 1) := by decide
example : hackathonStartMs_v0 = 1748649600000 := by decide
example : hackathonStartMs_v1 = 1733011200000 := by decide
example : toDateString 0 = "Thu Jan 01 1970" := by decide
example : toDateString hackathonStartMs_v0 = "Sat May 31 2025" := by decide
example : toDateString hackathonStartMs_v1 = "Sun Dec 01 2024" := by decide
example : jsParseInt "0" = some 0 := by decide
example : jsParseInt "  42abc" = some 42 := by decide
example : jsParseInt "-7" = some (-7) := by decide
example : jsParseInt "abc" = none := by decide
example : roundPercentage 17 20 = 85 := by decide
example : roundPercentage 1 8 = 13 := by decide
example : roundPercentage 0 0 = 0 := by decide
example : countRapidPairs [0, 100000, 200000, 10000000] = 2 := by decide
example : containsSubstr (lowerString "Update Package.JSON deps") "package.json" = true := by
  decide

/-- The heuristic likelihood estimate substituted by version 0 when the
parsed `likelihood` coerces to `0` or `NaN`:
`Math.min(patterns.githubVerifiedPercentage + patterns.rapidCommits, 100)`. -/
def heuristicLikelihood_v0 (p : Patterns) : ℚ :=
  min ((p.verificationPercentage : ℚ) + (p.rapidCommits : ℚ)) 100

/-- The corresponding version-1 heuristic: `patterns.verificationPercentage`. -/
def heuristicLikelihood_v1 (p : Patterns) : ℚ :=
  (p.verificationPercentage : ℚ)

/-- `parseInt(String(v)) || heuristic`: the string-parse of the non-numeric
`likelihood`, with both `NaN` and `0` (falsy) discarded in favour of the
heuristic estimate. -/
def coerceLikelihood (v : Json) (heuristic : ℚ) : ℚ :=
  match jsParseInt (jsToString v) with
  | some n => if n = 0 then heuristic else (n : ℚ)
  | none => heuristic

/-- The confidence derived by version 0 when the parsed `confidence` is not
one of the three expected strings: thresholds on the (already coerced)
likelihood. -/
def confFromLikelihood (q : ℚ) : String :=
  if 80 < q then "high" else if 60 < q then "medium" else "low"

/-- The confidence derived by version 1 in the same situation: thresholds on
the verification percentage. -/
def confFromVerification (p : Patterns) : String :=
  if 80 < p.verificationPercentage then "high"
  else if 60 < p.verificationPercentage then "medium" else "low"

/-- Version-0 structured fallback analysis (part_000 lines 372-388):
summary/findings/recommendations template strings over the signal bundle,
`likelihood = Math.min(percentage * 0.3 + rapid * 2 + (total > 50 ? 10 : 0), 100)`
(the float literal `0.3` modelled as `3/10`), confidence from rapid-commit
thresholds. -/
def fallbackAnalysis_v0 (p : Patterns) (createdMs : Int) : Json :=
  .obj [
    ("summary", .str ("Analysis based on " ++ natToDec p.totalCommits ++
      " commits with " ++ natToDec p.verificationPercentage ++
      "% GitHub verification rate. Rapid commits: " ++ natToDec p.rapidCommits ++
      ". Development patterns suggest " ++
      (if 10 < p.rapidCommits then "automated" else "manual") ++ " code generation.")),
    ("likelihood", .num (min ((3 : ℚ) / 10 * (p.verificationPercentage : ℚ) +
      2 * (p.rapidCommits : ℚ) +
      (if 50 < p.totalCommits then 10 else 0)) 100)),
    ("keyFindings", .arr [
      .str ("GitHub verification rate: " ++ natToDec p.verificationPercentage ++
        "% (" ++ natToDec p.verifiedCommits ++ "/" ++ natToDec p.totalCommits ++
        " commits)"),
      .str ("Rapid commit sequences: " ++ natToDec p.rapidCommits ++ " detected"),
      .str (if 10 < p.rapidCommits then "High automation suggests AI-assisted development"
        else "Development patterns suggest human involvement"),
      .str ("Repository created: " ++ toDateString createdMs)]),
    ("recommendations", .arr [
      .str (if 10 < p.rapidCommits then "Manual code review recommended for hackathon compliance"
        else "Development patterns appear normal"),
      .str "Consider reviewing commit history for development timeline",
      .str "Validate that primary development occurred within hackathon timeframe"]),
    ("confidence", .str (if 15 < p.rapidCommits then "high"
      else if 7 < p.rapidCommits then "medium" else "low"))]

/-- Version-1 structured fallback analysis (part_001 lines 315-331):
`likelihood = Math.min(percentage + (rapid > 10 ? 15 : 0), 100)`, confidence
from verification-percentage thresholds. -/
def fallbackAnalysis_v1 (p : Patterns) (createdMs : Int) : Json :=
  .obj [
    ("summary", .str ("Analysis based on " ++ natToDec p.totalCommits ++
      " commits with " ++ natToDec p.verificationPercentage ++
      "% verification rate. " ++
      (if 80 < p.verificationPercentage then "High verification suggests AI generation."
        else "Verification patterns indicate mixed development approach."))),
    ("likelihood", .num (min ((p.verificationPercentage : ℚ) +
      (if 10 < p.rapidCommits then 15 else 0)) 100)),
    ("keyFindings", .arr [
      .str ("Verification rate: " ++ natToDec p.verificationPercentage ++
        "% (" ++ natToDec p.verifiedCommits ++ "/" ++ natToDec p.totalCommits ++
        " commits)"),
      .str ("Rapid commit sequences: " ++ natToDec p.rapidCommits ++ " detected"),
      .str (if 80 < p.verificationPercentage
        then "High verification rate indicates AI-assisted development"
        else "Verification patterns suggest human development"),
      .str ("Repository created: " ++ toDateString createdMs)]),
    ("recommendations", .arr [
      .str (if 80 < p.verificationPercentage
        then "Manual code review recommended for hackathon compliance"
        else "Verification patterns appear normal"),
      .str "Consider reviewing commit history for development timeline",
      .str "Validate that primary development occurred within hackathon timeframe"]),
    ("confidence", .str (confFromVerification p))]

/-- `aiAnalysis.likelihood` read as a number, with a default for the
non-numeric case (unreachable on normalizer outputs, whose likelihood is
always numeric). -/
def jsonNumD (j : Json) (d : ℚ) : ℚ :=
  match j with
  | .num q => q
  | _ => d

/-- `if (!Array.isArray(parsedAnalysis[k])) parsedAnalysis[k] =
[String(parsedAnalysis[k])]`: the in-place wrap of a non-array field. -/
def fixArrayField (j : Json) (k : String) : Json :=
  if optIsArr (j.getField k) then j
  else j.setField k (.arr [.str (jsToString (j.getD k))])

/-- `if (typeof parsedAnalysis.likelihood !== 'number') parsedAnalysis
.likelihood = parseInt(String(parsedAnalysis.likelihood)) || heuristic`:
the in-place numeric coercion of the likelihood field. -/
def fixLikelihoodField (j : Json) (heuristic : ℚ) : Json :=
  if optIsNum (j.getField "likelihood") then j
  else j.setField "likelihood"
    (.num (coerceLikelihood (j.getD "likelihood") heuristic))

/-- Version-0 in-place normalization of a successfully parsed response that
has all five fields (part_000 lines 341-361): wrap non-array
`keyFindings`/`recommendations`, coerce a non-numeric `likelihood`, then
repair an invalid `confidence` from the (already coerced) likelihood. -/
def normalizeSuccess_v0 (p : Patterns) (j : Json) : Json :=
  let j3 := fixLikelihoodField
    (fixArrayField (fixArrayField j "keyFindings") "recommendations")
    (heuristicLikelihood_v0 p)
  if confValid (j3.getField "confidence") then j3
  else j3.setField "confidence"
    (.str (confFromLikelihood (jsonNumD (j3.getD "likelihood") 0)))

/-- Version-1 in-place normalization (part_001 lines 284-304): identical
except for the heuristic estimate and the source of the repaired
confidence. -/
def normalizeSuccess_v1 (p : Patterns) (j : Json) : Json :=
  let j3 := fixLikelihoodField
    (fixArrayField (fixArrayField j "keyFindings") "recommendations")
    (heuristicLikelihood_v1 p)
  if confValid (j3.getField "confidence") then j3
  else j3.setField "confidence" (.str (confFromVerification p))

/-- The pure core of `analyzeWithGemini`, version 0 (part_000 lines
316-389), on the outcome of `JSON.parse` over the cleaned response text
(`none` for a failed call, missing text, or a parse error).  A parse result
missing any of the five required fields throws inside the inner `try`, and
every throw lands in the outer `catch`, which returns the structured
fallback: the function is total and never throws outward. -/
def analyzeWithGemini_v0 (p : Patterns) (createdMs : Int) (parsed : Option Json) : Json :=
  match parsed with
  | some j => if hasAllFive j then normalizeSuccess_v0 p j else fallbackAnalysis_v0 p createdMs
  | none => fallbackAnalysis_v0 p createdMs

/-- The pure core of `analyzeWithGemini`, version 1 (part_001 lines
259-332). -/
def analyzeWithGemini_v1 (p : Patterns) (createdMs : Int) (parsed : Option Json) : Json :=
  match parsed with
  | some j => if hasAllFive j then normalizeSuccess_v1 p j else fallbackAnalysis_v1 p createdMs
  | none => fallbackAnalysis_v1 p createdMs

/-- `aiAnalysis.confidence` read as a string (always a string on normalizer
outputs; the default covers the unreachable case of the typed field). -/
def jsonStrD (j : Json) (d : String) : String :=
  match j with
  | .str s => s
  | _ => d

/-- The `AnalysisResult` object of part_000, fields in interface order. -/
structure AnalysisResult_v0 where
  repoUrl : String
  verificationPercentage : ℚ
  isLikelyAIGenerated : Bool
  isEligible : Bool
  hasBoltNewBadge : Bool
  commitPatterns : Patterns
  confidence : String
  details : List String
  aiAnalysis : Json
  eligibilityReason : String

/-- The `AnalysisResult` object of part_001 (no badge field). -/
structure AnalysisResult_v1 where
  repoUrl : String
  verificationPercentage : ℚ
  isLikelyAIGenerated : Bool
  isEligible : Bool
  commitPatterns : Patterns
  confidence : String
  details : List String
  aiAnalysis : Json
  eligibilityReason : String

/-- Verdict composition of part_000 (lines 464-503): the headline
`verificationPercentage` and the result `confidence` are taken from the AI
analysis (the locally computed confidence variable is dead for the result
object), and `isLikelyAIGenerated = aiAnalysis.likelihood > 70`. -/
def composeVerdict_v0 (repoUrl : String) (p : Patterns) (elig : EligibilityResult)
    (hasBadge : Bool) (ai : Json) (createdMs : Int) : AnalysisResult_v0 :=
  let lik := ai.getD "likelihood"
  let base := [
    "Repository analyzed: " ++ natToDec p.totalCommits ++ " total commits",
    "GitHub verified commits: " ++ natToDec p.verifiedCommits ++ " (" ++
      natToDec p.verificationPercentage ++ "%)",
    "Rapid commit sequences: " ++ natToDec p.rapidCommits,
    "AI likelihood assessment: " ++ jsToString lik ++ "%",
    "Bolt.new badge " ++ (if hasBadge then "detected" else "not found") ++
      " in source code",
    "Repository created: " ++ toDateString createdMs,
    elig.reason]
  let details := if elig.isEligible then base
    else "⚠️ Repository not eligible for hackathon" :: base
  ⟨repoUrl, jsonNumD lik 0, decide (70 < jsonNumD lik 0), elig.isEligible, hasBadge,
    p, jsonStrD (ai.getD "confidence") "", details, ai, elig.reason⟩

/-- Verdict composition of part_001 (lines 406-440): `isLikelyAIGenerated`,
`confidence` and the headline `verificationPercentage` are all computed from
the signal bundle, not from the AI analysis. -/
def composeVerdict_v1 (repoUrl : String) (p : Patterns) (elig : EligibilityResult)
    (ai : Json) (createdMs : Int) : AnalysisResult_v1 :=
  let isLikely := decide (80 < p.verificationPercentage) || decide (15 < p.rapidCommits)
  let conf := if 80 < p.verificationPercentage ∨ 20 < p.rapidCommits then "high"
    else if 60 < p.verificationPercentage ∨ 10 < p.rapidCommits then "medium" else "low"
  let base := [
    "Repository analyzed: " ++ natToDec p.totalCommits ++ " total commits",
    "Verified commits: " ++ natToDec p.verifiedCommits ++ " (" ++
      natToDec p.verificationPercentage ++ "%)",
    "Rapid commit sequences: " ++ natToDec p.rapidCommits,
    "Repository created: " ++ toDateString createdMs,
    elig.reason]
  let details := if elig.isEligible then base
    else "⚠️ Repository not eligible for hackathon" :: base
  ⟨repoUrl, (p.verificationPercentage : ℚ), isLikely, elig.isEligible,
    p, conf, details, ai, elig.reason⟩

/-! ### Helper lemmas about the object-update model -/

theorem lookupField_set_self (fs : List (String × Json)) (k : String) (v : Json) :
    lookupField (fs.map fun p => if p.1 = k then (p.1, v) else p) k =
      (lookupField fs k).map fun _ => v := by
  induction fs with
  | nil => rfl
  | cons a rest ih =>
      obtain ⟨k', v'⟩ := a
      simp only [List.map]
      by_cases h : k' = k
      · rw [if_pos h]
        simp [lookupField, h]
      · rw [if_neg h]
        simp [lookupField, h, ih]

theorem lookupField_set_ne (fs : List (String × Json)) {k k' : String} (v : Json)
    (h : k ≠ k') :
    lookupField (fs.map fun p => if p.1 = k then (p.1, v) else p) k' =
      lookupField fs k' := by
  induction fs with
  | nil => rfl
  | cons a rest ih =>
      obtain ⟨k₁, v₁⟩ := a
      simp only [List.map]
      by_cases h₁ : k₁ = k
      · rw [if_pos h₁]
        subst h₁
        simp [lookupField, h, ih]
      · rw [if_neg h₁]
        by_cases h₂ : k₁ = k'
        · simp [lookupField, h₂]
        · simp [lookupField, h₂, ih]

theorem getField_setField_self (j : Json) (k : String) (v : Json) :
    (j.setField k v).getField k = (j.getField k).map fun _ => v := by
  cases j <;> simp [Json.setField, Json.getField, lookupField_set_self]

theorem getField_setField_ne (j : Json) {k k' : String} (v : Json) (h : k ≠ k') :
    (j.setField k v).getField k' = j.getField k' := by
  cases j <;> simp [Json.setField, Json.getField, lookupField_set_ne _ _ h]

theorem isSome_getField_setField (j : Json) (k k' : String) (v : Json) :
    ((j.setField k v).getField k').isSome = (j.getField k').isSome := by
  by_cases h : k = k'
  · subst h
    rw [getField_setField_self]
    cases j.getField k <;> rfl
  · rw [getField_setField_ne _ _ h]

theorem hasAllFive_setField (j : Json) (k : String) (v : Json) :
    hasAllFive (j.setField k v) = hasAllFive j := by
  simp [hasAllFive, isSome_getField_setField]

theorem optIsNum_spec {o : Option Json} (h : optIsNum o = true) :
    ∃ q, o = some (.num q) := by
  match o with
  | some (.num q) => exact ⟨q, rfl⟩
  | none | some .null | some (.bool _) | some (.str _) | some (.arr _)
  | some (.obj _) => simp [optIsNum] at h

theorem confValid_spec {o : Option Json} (h : confValid o = true) :
    ∃ s, o = some (.str s) ∧ (s = "high" ∨ s = "medium" ∨ s = "low") := by
  match o with
  | some (.str s) =>
      refine ⟨s, rfl, ?_⟩
      simpa [confValid] using h
  | none | some .null | some (.bool _) | some (.num _) | some (.arr _)
  | some (.obj _) => simp [confValid] at h

theorem hasAllFive_fixArrayField (j : Json) (k : String) :
    hasAllFive (fixArrayField j k) = hasAllFive j := by
  unfold fixArrayField
  split
  · rfl
  · exact hasAllFive_setField ..

theorem getField_fixArrayField_ne (j : Json) {k k' : String} (h : k ≠ k') :
    (fixArrayField j k).getField k' = j.getField k' := by
  unfold fixArrayField
  split
  · rfl
  · exact getField_setField_ne _ _ h

theorem hasAllFive_fixLikelihoodField (j : Json) (heuristic : ℚ) :
    hasAllFive (fixLikelihoodField j heuristic) = hasAllFive j := by
  unfold fixLikelihoodField
  split
  · rfl
  · exact hasAllFive_setField ..

theorem getField_fixLikelihoodField_num (j : Json) (heuristic : ℚ)
    (hpres : (j.getField "likelihood").isSome = true) :
    ∃ q, (fixLikelihoodField j heuristic).getField "likelihood" = some (.num q) := by
  unfold fixLikelihoodField
  split
  · next hnum => exact optIsNum_spec hnum
  · rw [getField_setField_self]
    obtain ⟨v, hv⟩ := Option.isSome_iff_exists.mp hpres
    exact ⟨_, by rw [hv]; rfl⟩

theorem getField_fixLikelihoodField_of_str (j : Json) (heuristic : ℚ) (s : String)
    (h : j.getField "likelihood" = some (.str s)) :
    (fixLikelihoodField j heuristic).getField "likelihood" =
      some (.num (coerceLikelihood (.str s) heuristic)) := by
  unfold fixLikelihoodField
  rw [h]
  simp only [optIsNum, Bool.false_eq_true, if_false]
  rw [getField_setField_self, h]
  simp [Json.getD, h]

/-- The five schema fields of a normalizer output are always present
(version-0 success path). -/
theorem hasAllFive_normalizeSuccess_v0 (p : Patterns) (j : Json) :
    hasAllFive (normalizeSuccess_v0 p j) = hasAllFive j := by
  simp only [normalizeSuccess_v0]
  split
  · simp [hasAllFive_fixLikelihoodField, hasAllFive_fixArrayField]
  · rw [hasAllFive_setField]
    simp [hasAllFive_fixLikelihoodField, hasAllFive_fixArrayField]

theorem hasAllFive_normalizeSuccess_v1 (p : Patterns) (j : Json) :
    hasAllFive (normalizeSuccess_v1 p j) = hasAllFive j := by
  simp only [normalizeSuccess_v1]
  split
  · simp [hasAllFive_fixLikelihoodField, hasAllFive_fixArrayField]
  · rw [hasAllFive_setField]
    simp [hasAllFive_fixLikelihoodField, hasAllFive_fixArrayField]

/-- Field reads on the version-0 fallback object reduce definitionally. -/
theorem fallbackAnalysis_v0_confidence (p : Patterns) (c : Int) :
    (fallbackAnalysis_v0 p c).getField "confidence" =
      some (.str (if 15 < p.rapidCommits then "high"
        else if 7 < p.rapidCommits then "medium" else "low")) := rfl

theorem fallbackAnalysis_v0_likelihood (p : Patterns) (c : Int) :
    (fallbackAnalysis_v0 p c).getField "likelihood" =
      some (.num (min ((3 : ℚ) / 10 * (p.verificationPercentage : ℚ) +
        2 * (p.rapidCommits : ℚ) +
        (if 50 < p.totalCommits then 10 else 0)) 100)) := rfl

theorem fallbackAnalysis_v0_hasAllFive (p : Patterns) (c : Int) :
    hasAllFive (fallbackAnalysis_v0 p c) = true := rfl

theorem fallbackAnalysis_v1_confidence (p : Patterns) (c : Int) :
    (fallbackAnalysis_v1 p c).getField "confidence" =
      some (.str (confFromVerification p)) := rfl

theorem fallbackAnalysis_v1_likelihood (p : Patterns) (c : Int) :
    (fallbackAnalysis_v1 p c).getField "likelihood" =
      some (.num (min ((p.verificationPercentage : ℚ) +
        (if 10 < p.rapidCommits then 15 else 0)) 100)) := rfl

theorem fallbackAnalysis_v1_hasAllFive (p : Patterns) (c : Int) :
    hasAllFive (fallbackAnalysis_v1 p c) = true := rfl

/-! ### Substring naming -/

/-- `needle` occurs verbatim inside `hay`: the "names the date" property of
the eligibility reason strings. -/
def strMentions (needle hay : String) : Prop :=
  needle.data <:+: hay.data

instance strMentionsDecidable (needle hay : String) : Decidable (strMentions needle hay) :=
  inferInstanceAs (Decidable (needle.data <:+: hay.data))

theorem strMentions_of_append (p needle q hay : String)
    (h : hay = p ++ needle ++ q) : strMentions needle hay := by
  subst h
  exact ⟨p.data, q.data, by simp [String.data_append]⟩

/-! ### Lengths of the rendered date strings -/

theorem length_weekdayName (w : Nat) : (weekdayName w).length = 3 := by
  match w with
  | 0 => rfl
  | 1 => rfl
  | 2 => rfl
  | 3 => rfl
  | 4 => rfl
  | 5 => rfl
  | _ + 6 => rfl

theorem length_monthName (m : Nat) : (monthName m).length = 3 := by
  match m with
  | 0 => rfl
  | 1 => rfl
  | 2 => rfl
  | 3 => rfl
  | 4 => rfl
  | 5 => rfl
  | 6 => rfl
  | 7 => rfl
  | 8 => rfl
  | 9 => rfl
  | 10 => rfl
  | 11 => rfl
  | _ + 12 => rfl

theorem length_pad2 (n : Nat) : (pad2 n).length = 2 := rfl

theorem length_year4 (y : Nat) : (year4 y).length = 4 := rfl

/-- The modelled `toDateString` always renders in the fixed 15-character
`"Www Mmm DD YYYY"` shape. -/
theorem length_toDateString (t : Int) : (toDateString t).length = 15 := by
  have hsp : (" " : String).length = 1 := rfl
  simp [toDateString, String.length_append, length_weekdayName, length_monthName,
    length_pad2, length_year4, hsp]

/-! ### Arithmetic bounds for the signal bundle -/

theorem roundPercentage_le_100 (v t : Nat) (h : v ≤ t) : roundPercentage v t ≤ 100 := by
  unfold roundPercentage
  split
  · next ht =>
      have h2 : 0 < 2 * t := by omega
      have hlt : (200 * v + t) / (2 * t) < 101 := by
        rw [Nat.div_lt_iff_lt_mul h2]
        omega
      omega
  · omega

theorem countRapidPairs_le (l : List Int) : countRapidPairs l ≤ l.length - 1 := by
  match l with
  | [] => exact Nat.le_refl _
  | [a] => exact Nat.zero_le _
  | a :: b :: rest =>
      have ih := countRapidPairs_le (b :: rest)
      simp only [countRapidPairs, List.length] at ih ⊢
      split <;> omega

/-- C7: for every commit list, the signal bundle satisfies
`0 ≤ verifiedCommits ≤ totalCommits`, `verificationRatio ∈ [0, 100]`, and
`rapidCommitCount ≤ max (totalCommits - 1) 0`. -/
theorem claim_C7 (commits : List Commit) :
    0 ≤ (analyzeCommitPatterns commits).verifiedCommits ∧
    (analyzeCommitPatterns commits).verifiedCommits ≤
      (analyzeCommitPatterns commits).totalCommits ∧
    0 ≤ (analyzeCommitPatterns commits).verificationPercentage ∧
    (analyzeCommitPatterns commits).verificationPercentage ≤ 100 ∧
    (analyzeCommitPatterns commits).rapidCommits ≤
      max ((analyzeCommitPatterns commits).totalCommits - 1) 0 := by
  have hfil : (commits.filter fun c => c.verified).length ≤ commits.length :=
    List.length_filter_le _ _
  refine ⟨Nat.zero_le _, hfil, Nat.zero_le _, ?_, ?_⟩
  · exact roundPercentage_le_100 _ _ hfil
  · show countRapidPairs (List.insertionSort (· ≤ ·) (commits.map fun c => c.dateMs)) ≤
      max (commits.length - 1) 0
    have hlen : (List.insertionSort (· ≤ ·) (commits.map fun c => c.dateMs)).length =
        commits.length := by
      rw [(List.perm_insertionSort _ _).length_eq, List.length_map]
    have h := countRapidPairs_le (List.insertionSort (· ≤ ·) (commits.map fun c => c.dateMs))
    rw [hlen] at h
    rw [Nat.max_eq_left (Nat.zero_le _)]
    exact h

/-- C8: `rapidCommitCount` is invariant under any permutation of the input
commit list, because the timestamps are sorted before the adjacent-pair
scan. -/
theorem claim_C8 (c₁ c₂ : List Commit) (h : c₁.Perm c₂) :
    (analyzeCommitPatterns c₁).rapidCommits = (analyzeCommitPatterns c₂).rapidCommits := by
  show countRapidPairs (List.insertionSort (· ≤ ·) (c₁.map fun c => c.dateMs)) =
    countRapidPairs (List.insertionSort (· ≤ ·) (c₂.map fun c => c.dateMs))
  have hp : (c₁.map fun c => c.dateMs).Perm (c₂.map fun c => c.dateMs) := h.map _
  have hsort : List.insertionSort (· ≤ ·) (c₁.map fun c => c.dateMs) =
      List.insertionSort (· ≤ ·) (c₂.map fun c => c.dateMs) :=
    List.eq_of_perm_of_sorted
      ((List.perm_insertionSort _ _).trans (hp.trans (List.perm_insertionSort _ _).symm))
      (List.sorted_insertionSort _ _) (List.sorted_insertionSort _ _)
  rw [hsort]

theorem claim_C8_witness :
    ([⟨"a", 0, "m1", true⟩, ⟨"b", 400000, "m2", false⟩, ⟨"c", 100000, "m3", false⟩] :
        List Commit).Perm
      [⟨"c", 100000, "m3", false⟩, ⟨"a", 0, "m1", true⟩, ⟨"b", 400000, "m2", false⟩] ∧
    (analyzeCommitPatterns
        [⟨"a", 0, "m1", true⟩, ⟨"b", 400000, "m2", false⟩, ⟨"c", 100000, "m3", false⟩]).rapidCommits =
      (analyzeCommitPatterns
        [⟨"c", 100000, "m3", false⟩, ⟨"a", 0, "m1", true⟩, ⟨"b", 400000, "m2", false⟩]).rapidCommits :=
  ⟨by decide, claim_C8 _ _ (by decide)⟩

/-- C5: the eligibility gate accepts exactly the creation instants at or
after the fixed cutoff, in both versions; the cutoff itself is eligible and
one millisecond before it is not. -/
theorem claim_C5 :
    (∀ t : Int, (checkHackathonEligibility_v0 t).isEligible = true ↔
      hackathonStartMs_v0 ≤ t) ∧
    (∀ t : Int, (checkHackathonEligibility_v1 t).isEligible = true ↔
      hackathonStartMs_v1 ≤ t) ∧
    (checkHackathonEligibility_v0 hackathonStartMs_v0).isEligible = true ∧
    (checkHackathonEligibility_v0 (hackathonStartMs_v0 - 1)).isEligible = false ∧
    (checkHackathonEligibility_v1 hackathonStartMs_v1).isEligible = true ∧
    (checkHackathonEligibility_v1 (hackathonStartMs_v1 - 1)).isEligible = false := by
  refine ⟨fun t => ?_, fun t => ?_, by decide, by decide, by decide, by decide⟩
  · unfold checkHackathonEligibility_v0
    split <;> rename_i h
    · simp
      omega
    · simp
      omega
  · unfold checkHackathonEligibility_v1
    split <;> rename_i h
    · simp
      omega
    · simp
      omega

/-- C2 (amended): in version 0 the verdict flag `isLikelyAIGenerated` is
`aiAnalysis.likelihood > 70` (false at 70, true at 71); in version 1 it is
`verificationPercentage > 80 || rapidCommits > 15`, computed from the signal
bundle and independent of the AI opinion. -/
theorem claim_C2 :
    (∀ (url : String) (p : Patterns) (e : EligibilityResult) (badge : Bool)
      (ai : Json) (c : Int) (q : ℚ), ai.getField "likelihood" = some (.num q) →
      ((composeVerdict_v0 url p e badge ai c).isLikelyAIGenerated = true ↔ 70 < q)) ∧
    (∀ (url : String) (p : Patterns) (e : EligibilityResult) (ai ai' : Json)
      (c c' : Int),
      (composeVerdict_v1 url p e ai c).isLikelyAIGenerated =
        (composeVerdict_v1 url p e ai' c').isLikelyAIGenerated) ∧
    (∀ (url : String) (p : Patterns) (e : EligibilityResult) (ai : Json) (c : Int),
      (composeVerdict_v1 url p e ai c).isLikelyAIGenerated = true ↔
        (80 < p.verificationPercentage ∨ 15 < p.rapidCommits)) := by
  refine ⟨fun url p e badge ai c q h => ?_, fun url p e ai ai' c c' => rfl,
    fun url p e ai c => ?_⟩
  · show decide (70 < jsonNumD (ai.getD "likelihood") 0) = true ↔ 70 < q
    have hq : jsonNumD (ai.getD "likelihood") 0 = q := by
      simp [Json.getD, h, jsonNumD]
    rw [hq]
    exact decide_eq_true_iff
  · show (decide (80 < p.verificationPercentage) || decide (15 < p.rapidCommits)) = true ↔ _
    simp

theorem claim_C2_witness :
    (Json.obj [("likelihood", .num 71)]).getField "likelihood" = some (.num 71) ∧
    ((composeVerdict_v0 "u" ⟨0, [], [], 0, 0, 0⟩ ⟨true, "r"⟩ true
        (.obj [("likelihood", .num 71)]) 0).isLikelyAIGenerated = true ↔ 70 < (71 : ℚ)) :=
  ⟨rfl, claim_C2.1 "u" ⟨0, [], [], 0, 0, 0⟩ ⟨true, "r"⟩ true _ 0 71 rfl⟩

theorem claim_C2_counterexample :
    (composeVerdict_v1 "u" ⟨0, [], [], 0, 0, 0⟩ ⟨true, "r"⟩
        (.obj [("likelihood", .num 71)]) 0).isLikelyAIGenerated = false ∧
    (Json.obj [("likelihood", .num 71)]).getField "likelihood" = some (.num 71) ∧
    (70 : ℚ) < 71 :=
  ⟨rfl, rfl, by decide⟩

/-- C3 (amended): in version 0 the headline `verificationPercentage` equals
the AI opinion likelihood and does not depend on the signal bundle; in
version 1 it is the bundle verification percentage, independent of the AI
opinion. -/
theorem claim_C3 :
    (∀ (url : String) (p : Patterns) (e : EligibilityResult) (badge : Bool)
      (ai : Json) (c : Int) (q : ℚ), ai.getField "likelihood" = some (.num q) →
      (composeVerdict_v0 url p e badge ai c).verificationPercentage = q) ∧
    (∀ (url : String) (p p' : Patterns) (e : EligibilityResult) (badge : Bool)
      (ai : Json) (c : Int),
      (composeVerdict_v0 url p e badge ai c).verificationPercentage =
        (composeVerdict_v0 url p' e badge ai c).verificationPercentage) ∧
    (∀ (url : String) (p : Patterns) (e : EligibilityResult) (ai ai' : Json)
      (c c' : Int),
      (composeVerdict_v1 url p e ai c).verificationPercentage =
        (composeVerdict_v1 url p e ai' c').verificationPercentage) ∧
    (∀ (url : String) (p : Patterns) (e : EligibilityResult) (ai : Json) (c : Int),
      (composeVerdict_v1 url p e ai c).verificationPercentage =
        (p.verificationPercentage : ℚ)) := by
  refine ⟨fun url p e badge ai c q h => ?_, fun url p p' e badge ai c => rfl,
    fun url p e ai ai' c c' => rfl, fun url p e ai c => rfl⟩
  show jsonNumD (ai.getD "likelihood") 0 = q
  simp [Json.getD, h, jsonNumD]

theorem claim_C3_witness :
    (Json.obj [("likelihood", .num 71)]).getField "likelihood" = some (.num 71) ∧
    (composeVerdict_v0 "u" ⟨0, [], [], 0, 0, 0⟩ ⟨true, "r"⟩ true
        (.obj [("likelihood", .num 71)]) 0).verificationPercentage = 71 :=
  ⟨rfl, claim_C3.1 "u" ⟨0, [], [], 0, 0, 0⟩ ⟨true, "r"⟩ true _ 0 71 rfl⟩

theorem claim_C3_counterexample :
    (composeVerdict_v1 "u" ⟨0, [], [], 0, 0, 0⟩ ⟨true, "r"⟩
        (.obj [("likelihood", .num 71)]) 0).verificationPercentage = 0 ∧
    (Json.obj [("likelihood", .num 71)]).getField "likelihood" = some (.num 71) ∧
    (0 : ℚ) ≠ 71 :=
  ⟨rfl, rfl, by decide⟩

/-- C4 (amended): in version 0 the verdict `confidence` is the AI opinion
confidence passed through unchanged; in version 1 it is recomputed from the
signal bundle thresholds and independent of the AI opinion. -/
theorem claim_C4 :
    (∀ (url : String) (p : Patterns) (e : EligibilityResult) (badge : Bool)
      (ai : Json) (c : Int) (s : String), ai.getField "confidence" = some (.str s) →
      (composeVerdict_v0 url p e badge ai c).confidence = s) ∧
    (∀ (url : String) (p : Patterns) (e : EligibilityResult) (ai ai' : Json)
      (c c' : Int),
      (composeVerdict_v1 url p e ai c).confidence =
        (composeVerdict_v1 url p e ai' c').confidence) ∧
    (∀ (url : String) (p : Patterns) (e : EligibilityResult) (ai : Json) (c : Int),
      (composeVerdict_v1 url p e ai c).confidence =
        (if 80 < p.verificationPercentage ∨ 20 < p.rapidCommits then "high"
         else if 60 < p.verificationPercentage ∨ 10 < p.rapidCommits then "medium"
         else "low")) := by
  refine ⟨fun url p e badge ai c s h => ?_, fun url p e ai ai' c c' => rfl,
    fun url p e ai c => rfl⟩
  show jsonStrD (ai.getD "confidence") "" = s
  simp [Json.getD, h, jsonStrD]

theorem claim_C4_witness :
    (Json.obj [("confidence", .str "high")]).getField "confidence" =
      some (.str "high") ∧
    (composeVerdict_v0 "u" ⟨0, [], [], 0, 0, 0⟩ ⟨true, "r"⟩ true
        (.obj [("confidence", .str "high")]) 0).confidence = "high" :=
  ⟨rfl, claim_C4.1 "u" ⟨0, [], [], 0, 0, 0⟩ ⟨true, "r"⟩ true _ 0 "high" rfl⟩

theorem claim_C4_counterexample :
    (composeVerdict_v1 "u" ⟨0, [], [], 0, 0, 0⟩ ⟨true, "r"⟩
        (.obj [("confidence", .str "high")]) 0).confidence = "low" ∧
    (Json.obj [("confidence", .str "high")]).getField "confidence" =
      some (.str "high") ∧
    ("low" : String) ≠ "high" :=
  ⟨rfl, rfl, by decide⟩

/-- C9 (amended): the version-0 fallback confidence is computed from
`rapidCommitCount` alone via the thresholds `> 15 → high`, `> 7 → medium`,
else `low` — so the scenario bundle `rapidCommitCount = 12,
verificationRatio = 85` yields `"medium"`; the version-1 fallback confidence
is computed from `verificationRatio` via `> 80 → high`, `> 60 → medium`,
else `low`, and yields `"high"` on that bundle. -/
theorem claim_C9 :
    (∀ (p : Patterns) (c : Int), 15 < p.rapidCommits →
      (analyzeWithGemini_v0 p c none).getField "confidence" = some (.str "high")) ∧
    (∀ (p : Patterns) (c : Int), 7 < p.rapidCommits → p.rapidCommits ≤ 15 →
      (analyzeWithGemini_v0 p c none).getField "confidence" = some (.str "medium")) ∧
    (∀ (p : Patterns) (c : Int), p.rapidCommits ≤ 7 →
      (analyzeWithGemini_v0 p c none).getField "confidence" = some (.str "low")) ∧
    (∀ (p : Patterns) (c : Int), 80 < p.verificationPercentage →
      (analyzeWithGemini_v1 p c none).getField "confidence" = some (.str "high")) ∧
    (analyzeWithGemini_v0 ⟨12, [], [], 17, 20, 85⟩ 0 none).getField "confidence" =
      some (.str "medium") ∧
    (analyzeWithGemini_v1 ⟨12, [], [], 17, 20, 85⟩ 0 none).getField "confidence" =
      some (.str "high") := by
  refine ⟨fun p c h => ?_, fun p c h7 h15 => ?_, fun p c h => ?_, fun p c h => ?_,
    rfl, rfl⟩
  · show (fallbackAnalysis_v0 p c).getField "confidence" = _
    rw [fallbackAnalysis_v0_confidence, if_pos h]
  · show (fallbackAnalysis_v0 p c).getField "confidence" = _
    rw [fallbackAnalysis_v0_confidence, if_neg (by omega), if_pos h7]
  · show (fallbackAnalysis_v0 p c).getField "confidence" = _
    rw [fallbackAnalysis_v0_confidence, if_neg (by omega), if_neg (by omega)]
  · show (fallbackAnalysis_v1 p c).getField "confidence" = _
    rw [fallbackAnalysis_v1_confidence]
    unfold confFromVerification
    rw [if_pos h]

theorem claim_C9_witness :
    (15 : Nat) < 16 ∧
    (analyzeWithGemini_v0 ⟨16, [], [], 0, 0, 0⟩ 0 none).getField "confidence" =
      some (.str "high") ∧
    (80 : Nat) < 85 ∧
    (analyzeWithGemini_v1 ⟨12, [], [], 17, 20, 85⟩ 0 none).getField "confidence" =
      some (.str "high") :=
  ⟨by decide, claim_C9.1 ⟨16, [], [], 0, 0, 0⟩ 0 (by decide), by decide,
    claim_C9.2.2.2.1 ⟨12, [], [], 17, 20, 85⟩ 0 (by decide)⟩

theorem claim_C9_counterexample :
    (analyzeWithGemini_v0 ⟨12, [], [], 17, 20, 85⟩ 0 none).getField "confidence" ≠
      some (.str "high") := by
  have e : (analyzeWithGemini_v0 ⟨12, [], [], 17, 20, 85⟩ 0 none).getField "confidence" =
      some (.str "medium") := rfl
  rw [e]
  intro h
  injection h with h1
  injection h1 with h2
  exact absurd h2 (by decide)

/-! ### Likelihood coercion on the successful-parse path -/

theorem coerceLikelihood_str_discard (s : String) (heuristic : ℚ)
    (hz : jsParseInt s = some 0 ∨ jsParseInt s = none) :
    coerceLikelihood (.str s) heuristic = heuristic := by
  have hjs : jsToString (.str s) = s := by simp [jsToString]
  unfold coerceLikelihood
  rw [hjs]
  rcases hz with h | h
  · rw [h]
    simp
  · rw [h]

theorem coerceLikelihood_str_keep (s : String) (heuristic : ℚ) (n : Int)
    (hn : jsParseInt s = some n) (h0 : n ≠ 0) :
    coerceLikelihood (.str s) heuristic = (n : ℚ) := by
  have hjs : jsToString (.str s) = s := by simp [jsToString]
  unfold coerceLikelihood
  rw [hjs, hn]
  simp [h0]

theorem normalizeSuccess_v0_likelihood_of_str (p : Patterns) (j : Json) (s : String)
    (hlik : j.getField "likelihood" = some (.str s)) :
    (normalizeSuccess_v0 p j).getField "likelihood" =
      some (.num (coerceLikelihood (.str s) (heuristicLikelihood_v0 p))) := by
  simp only [normalizeSuccess_v0]
  have h1 : (fixArrayField (fixArrayField j "keyFindings") "recommendations").getField
      "likelihood" = some (.str s) := by
    rw [getField_fixArrayField_ne _ (by decide), getField_fixArrayField_ne _ (by decide)]
    exact hlik
  have h3 := getField_fixLikelihoodField_of_str _ (heuristicLikelihood_v0 p) s h1
  split
  · exact h3
  · rw [getField_setField_ne _ _ (by decide : "confidence" ≠ "likelihood")]
    exact h3

theorem normalizeSuccess_v1_likelihood_of_str (p : Patterns) (j : Json) (s : String)
    (hlik : j.getField "likelihood" = some (.str s)) :
    (normalizeSuccess_v1 p j).getField "likelihood" =
      some (.num (coerceLikelihood (.str s) (heuristicLikelihood_v1 p))) := by
  simp only [normalizeSuccess_v1]
  have h1 : (fixArrayField (fixArrayField j "keyFindings") "recommendations").getField
      "likelihood" = some (.str s) := by
    rw [getField_fixArrayField_ne _ (by decide), getField_fixArrayField_ne _ (by decide)]
    exact hlik
  have h3 := getField_fixLikelihoodField_of_str _ (heuristicLikelihood_v1 p) s h1
  split
  · exact h3
  · rw [getField_setField_ne _ _ (by decide : "confidence" ≠ "likelihood")]
    exact h3

/-- C10: on the successful-parse path, a non-numeric `likelihood` is coerced
by `parseInt(String(likelihood)) || heuristic`: a string parsing to `0` or
to no number at all is discarded in favour of the heuristic estimate, while
a nonzero parse is kept; in particular the string `"0"` yields the heuristic
estimate, not `0`. -/
theorem claim_C10 :
    (∀ (j : Json) (p : Patterns) (c : Int) (s : String),
      hasAllFive j = true →
      j.getField "likelihood" = some (.str s) →
      (jsParseInt s = some 0 ∨ jsParseInt s = none) →
      (analyzeWithGemini_v0 p c (some j)).getField "likelihood" =
        some (.num (heuristicLikelihood_v0 p)) ∧
      (analyzeWithGemini_v1 p c (some j)).getField "likelihood" =
        some (.num (heuristicLikelihood_v1 p))) ∧
    (∀ (j : Json) (p : Patterns) (c : Int) (s : String) (n : Int),
      hasAllFive j = true →
      j.getField "likelihood" = some (.str s) →
      jsParseInt s = some n → n ≠ 0 →
      (analyzeWithGemini_v0 p c (some j)).getField "likelihood" = some (.num (n : ℚ)) ∧
      (analyzeWithGemini_v1 p c (some j)).getField "likelihood" = some (.num (n : ℚ))) := by
  constructor
  · intro j p c s h5 hlik hz
    constructor
    · show (analyzeWithGemini_v0 p c (some j)).getField "likelihood" = _
      simp only [analyzeWithGemini_v0, h5, if_true]
      rw [normalizeSuccess_v0_likelihood_of_str p j s hlik,
        coerceLikelihood_str_discard s _ hz]
    · simp only [analyzeWithGemini_v1, h5, if_true]
      rw [normalizeSuccess_v1_likelihood_of_str p j s hlik,
        coerceLikelihood_str_discard s _ hz]
  · intro j p c s n h5 hlik hn h0
    constructor
    · simp only [analyzeWithGemini_v0, h5, if_true]
      rw [normalizeSuccess_v0_likelihood_of_str p j s hlik,
        coerceLikelihood_str_keep s _ n hn h0]
    · simp only [analyzeWithGemini_v1, h5, if_true]
      rw [normalizeSuccess_v1_likelihood_of_str p j s hlik,
        coerceLikelihood_str_keep s _ n hn h0]

/-- A concrete parsed AI response whose `likelihood` field is the string
`"0"`, used to witness C10. -/
def zeroLikelihoodResponse : Json :=
  Json.obj [("summary", .str "s"), ("likelihood", .str "0"),
    ("keyFindings", .arr [.str "f"]), ("recommendations", .arr [.str "r"]),
    ("confidence", .str "high")]

theorem claim_C10_witness :
    hasAllFive zeroLikelihoodResponse = true ∧
    zeroLikelihoodResponse.getField "likelihood" = some (.str "0") ∧
    jsParseInt "0" = some 0 ∧
    (analyzeWithGemini_v0 ⟨12, [], [], 17, 20, 85⟩ 0
        (some zeroLikelihoodResponse)).getField "likelihood" =
      some (.num (heuristicLikelihood_v0 ⟨12, [], [], 17, 20, 85⟩)) :=
  ⟨rfl, rfl, rfl,
    (claim_C10.1 zeroLikelihoodResponse ⟨12, [], [], 17, 20, 85⟩ 0 "0" rfl rfl
      (Or.inl rfl)).1⟩

/-! ### Eligibility reason strings -/

theorem reason_v0_ineligible (t : Int) (h : t < hackathonStartMs_v0) :
    (checkHackathonEligibility_v0 t).reason =
      "Repository created on " ++ toDateString t ++
        ", before hackathon start date (May 31, 2025)" := by
  unfold checkHackathonEligibility_v0
  rw [if_pos h]

theorem reason_v0_eligible (t : Int) (h : hackathonStartMs_v0 ≤ t) :
    (checkHackathonEligibility_v0 t).reason =
      "Repository created on " ++ toDateString t ++
        ", from/after hackathon start date (May 31, 2025)" := by
  unfold checkHackathonEligibility_v0
  rw [if_neg (not_lt.mpr h)]

theorem reason_v1_ineligible (t : Int) (h : t < hackathonStartMs_v1) :
    (checkHackathonEligibility_v1 t).reason =
      "Repository created on " ++ toDateString t ++
        ", before hackathon submission period (December 1, 2024)" := by
  unfold checkHackathonEligibility_v1
  rw [if_pos h]

theorem reason_v1_eligible (t : Int) (h : hackathonStartMs_v1 ≤ t) :
    (checkHackathonEligibility_v1 t).reason =
      "Repository meets hackathon timeline requirements" := by
  unfold checkHackathonEligibility_v1
  rw [if_neg (not_lt.mpr h)]

/-- C6 (amended): in version 0 every reason string names both the cutoff
date and the rendered creation date, and eligible and ineligible reasons are
never equal; in version 1 the ineligible reason names both dates but the
eligible reason is a fixed sentence naming neither, and the two branches
still never produce equal wording. -/
theorem claim_C6 :
    (∀ t : Int, strMentions "May 31, 2025" (checkHackathonEligibility_v0 t).reason) ∧
    (∀ t : Int, strMentions (toDateString t) (checkHackathonEligibility_v0 t).reason) ∧
    (∀ t t' : Int, t < hackathonStartMs_v0 → hackathonStartMs_v0 ≤ t' →
      (checkHackathonEligibility_v0 t).reason ≠ (checkHackathonEligibility_v0 t').reason) ∧
    (∀ t : Int, t < hackathonStartMs_v1 →
      strMentions "December 1, 2024" (checkHackathonEligibility_v1 t).reason ∧
      strMentions (toDateString t) (checkHackathonEligibility_v1 t).reason) ∧
    (∀ t : Int, hackathonStartMs_v1 ≤ t →
      (checkHackathonEligibility_v1 t).reason =
        "Repository meets hackathon timeline requirements") ∧
    (∀ t t' : Int, t < hackathonStartMs_v1 → hackathonStartMs_v1 ≤ t' →
      (checkHackathonEligibility_v1 t).reason ≠ (checkHackathonEligibility_v1 t').reason) := by
  have hb : (", before hackathon start date (May 31, 2025)" : String) =
      ", before hackathon start date (" ++ "May 31, 2025" ++ ")" := by decide
  have he : (", from/after hackathon start date (May 31, 2025)" : String) =
      ", from/after hackathon start date (" ++ "May 31, 2025" ++ ")" := by decide
  have hv1 : (", before hackathon submission period (December 1, 2024)" : String) =
      ", before hackathon submission period (" ++ "December 1, 2024" ++ ")" := by decide
  refine ⟨fun t => ?_, fun t => ?_, fun t t' h1 h2 heq => ?_, fun t h => ⟨?_, ?_⟩,
    fun t h => reason_v1_eligible t h, fun t t' h1 h2 heq => ?_⟩
  · rcases lt_or_le t hackathonStartMs_v0 with h | h
    · refine strMentions_of_append
        ("Repository created on " ++ toDateString t ++ ", before hackathon start date (")
        _ ")" _ ?_
      rw [reason_v0_ineligible t h, hb]
      simp [String.append_assoc]
    · refine strMentions_of_append
        ("Repository created on " ++ toDateString t ++ ", from/after hackathon start date (")
        _ ")" _ ?_
      rw [reason_v0_eligible t h, he]
      simp [String.append_assoc]
  · rcases lt_or_le t hackathonStartMs_v0 with h | h
    · exact strMentions_of_append "Repository created on " _
        ", before hackathon start date (May 31, 2025)" _ (reason_v0_ineligible t h)
    · exact strMentions_of_append "Repository created on " _
        ", from/after hackathon start date (May 31, 2025)" _ (reason_v0_eligible t h)
  · rw [reason_v0_ineligible t h1, reason_v0_eligible t' h2] at heq
    have hl := congrArg String.length heq
    have c1 : ("Repository created on " : String).length = 22 := rfl
    have c2 : (", before hackathon start date (May 31, 2025)" : String).length = 44 := rfl
    have c3 : (", from/after hackathon start date (May 31, 2025)" : String).length = 48 := rfl
    rw [String.length_append, String.length_append, String.length_append,
      String.length_append, c1, c2, c3, length_toDateString, length_toDateString] at hl
    omega
  · refine strMentions_of_append
      ("Repository created on " ++ toDateString t ++ ", before hackathon submission period (")
      _ ")" _ ?_
    rw [reason_v1_ineligible t h, hv1]
    simp [String.append_assoc]
  · exact strMentions_of_append "Repository created on " _
      ", before hackathon submission period (December 1, 2024)" _ (reason_v1_ineligible t h)
  · rw [reason_v1_ineligible t h1, reason_v1_eligible t' h2] at heq
    have hl := congrArg String.length heq
    have c1 : ("Repository created on " : String).length = 22 := rfl
    have c2 : (", before hackathon submission period (December 1, 2024)" : String).length =
      55 := rfl
    have c3 : ("Repository meets hackathon timeline requirements" : String).length = 48 := rfl
    rw [String.length_append, String.length_append, c1, c2, length_toDateString, c3] at hl
    omega

theorem claim_C6_witness :
    (1748649599999 : Int) < hackathonStartMs_v0 ∧
    hackathonStartMs_v0 ≤ (1748649600000 : Int) ∧
    (checkHackathonEligibility_v0 1748649599999).reason ≠
      (checkHackathonEligibility_v0 1748649600000).reason :=
  ⟨by decide, by decide, claim_C6.2.2.1 1748649599999 1748649600000 (by decide) (by decide)⟩

theorem claim_C6_counterexample :
    (checkHackathonEligibility_v1 hackathonStartMs_v1).isEligible = true ∧
    ¬ strMentions (toDateString hackathonStartMs_v1)
        (checkHackathonEligibility_v1 hackathonStartMs_v1).reason ∧
    ¬ strMentions "December 1, 2024"
        (checkHackathonEligibility_v1 hackathonStartMs_v1).reason :=
  ⟨rfl, by decide, by decide⟩

/-! ### Structural validity of every normalizer output -/

theorem hasAllFive_pres (j : Json) (h5 : hasAllFive j = true) :
    (j.getField "summary").isSome = true ∧ (j.getField "likelihood").isSome = true ∧
    (j.getField "keyFindings").isSome = true ∧
    (j.getField "recommendations").isSome = true ∧
    (j.getField "confidence").isSome = true := by
  simp only [hasAllFive, Bool.and_eq_true] at h5
  tauto

theorem isSome_getField_fixArrayField (j : Json) (k k' : String) :
    ((fixArrayField j k).getField k').isSome = (j.getField k').isSome := by
  unfold fixArrayField
  split
  · rfl
  · exact isSome_getField_setField ..

theorem isSome_getField_fixLikelihoodField (j : Json) (heuristic : ℚ) (k' : String) :
    ((fixLikelihoodField j heuristic).getField k').isSome = (j.getField k').isSome := by
  unfold fixLikelihoodField
  split
  · rfl
  · exact isSome_getField_setField ..

theorem confStep_getField_likelihood (j3 : Json) (d : String) :
    (if confValid (j3.getField "confidence") then j3
      else j3.setField "confidence" (.str d)).getField "likelihood" =
      j3.getField "likelihood" := by
  split
  · rfl
  · exact getField_setField_ne _ _ (by decide)

theorem confStep_confidence (j3 : Json) (d : String)
    (hpres : (j3.getField "confidence").isSome = true)
    (hd : d = "high" ∨ d = "medium" ∨ d = "low") :
    ∃ s, (if confValid (j3.getField "confidence") then j3
      else j3.setField "confidence" (.str d)).getField "confidence" =
        some (.str s) ∧ (s = "high" ∨ s = "medium" ∨ s = "low") := by
  split
  · next hc => exact confValid_spec hc
  · obtain ⟨v, hv⟩ := Option.isSome_iff_exists.mp hpres
    exact ⟨d, by rw [getField_setField_self, hv]; rfl, hd⟩

theorem confStep_hasAllFive (j3 : Json) (d : String) :
    hasAllFive (if confValid (j3.getField "confidence") then j3
      else j3.setField "confidence" (.str d)) = hasAllFive j3 := by
  split
  · rfl
  · exact hasAllFive_setField ..

theorem confFromLikelihood_mem (q : ℚ) :
    confFromLikelihood q = "high" ∨ confFromLikelihood q = "medium" ∨
      confFromLikelihood q = "low" := by
  unfold confFromLikelihood
  split
  · exact Or.inl rfl
  · split
    · exact Or.inr (Or.inl rfl)
    · exact Or.inr (Or.inr rfl)

theorem confFromVerification_mem (p : Patterns) :
    confFromVerification p = "high" ∨ confFromVerification p = "medium" ∨
      confFromVerification p = "low" := by
  unfold confFromVerification
  split
  · exact Or.inl rfl
  · split
    · exact Or.inr (Or.inl rfl)
    · exact Or.inr (Or.inr rfl)

theorem successOpinion_v0_spec (p : Patterns) (j : Json) (h5 : hasAllFive j = true) :
    hasAllFive (normalizeSuccess_v0 p j) = true ∧
    (∃ q, (normalizeSuccess_v0 p j).getField "likelihood" = some (.num q)) ∧
    (∃ s, (normalizeSuccess_v0 p j).getField "confidence" = some (.str s) ∧
      (s = "high" ∨ s = "medium" ∨ s = "low")) := by
  have hpresL : ((fixArrayField (fixArrayField j "keyFindings")
      "recommendations").getField "likelihood").isSome = true := by
    rw [isSome_getField_fixArrayField, isSome_getField_fixArrayField]
    exact (hasAllFive_pres j h5).2.1
  have hpresC : ((fixLikelihoodField (fixArrayField (fixArrayField j "keyFindings")
      "recommendations") (heuristicLikelihood_v0 p)).getField "confidence").isSome = true := by
    rw [isSome_getField_fixLikelihoodField, isSome_getField_fixArrayField,
      isSome_getField_fixArrayField]
    exact (hasAllFive_pres j h5).2.2.2.2
  refine ⟨?_, ?_, ?_⟩
  · show hasAllFive (normalizeSuccess_v0 p j) = true
    simp only [normalizeSuccess_v0]
    rw [confStep_hasAllFive, hasAllFive_fixLikelihoodField, hasAllFive_fixArrayField,
      hasAllFive_fixArrayField]
    exact h5
  · show ∃ q, (normalizeSuccess_v0 p j).getField "likelihood" = some (.num q)
    simp only [normalizeSuccess_v0]
    rw [confStep_getField_likelihood]
    exact getField_fixLikelihoodField_num _ _ hpresL
  · show ∃ s, (normalizeSuccess_v0 p j).getField "confidence" = some (.str s) ∧ _
    simp only [normalizeSuccess_v0]
    exact confStep_confidence _ _ hpresC (confFromLikelihood_mem _)

theorem successOpinion_v1_spec (p : Patterns) (j : Json) (h5 : hasAllFive j = true) :
    hasAllFive (normalizeSuccess_v1 p j) = true ∧
    (∃ q, (normalizeSuccess_v1 p j).getField "likelihood" = some (.num q)) ∧
    (∃ s, (normalizeSuccess_v1 p j).getField "confidence" = some (.str s) ∧
      (s = "high" ∨ s = "medium" ∨ s = "low")) := by
  have hpresL : ((fixArrayField (fixArrayField j "keyFindings")
      "recommendations").getField "likelihood").isSome = true := by
    rw [isSome_getField_fixArrayField, isSome_getField_fixArrayField]
    exact (hasAllFive_pres j h5).2.1
  have hpresC : ((fixLikelihoodField (fixArrayField (fixArrayField j "keyFindings")
      "recommendations") (heuristicLikelihood_v1 p)).getField "confidence").isSome = true := by
    rw [isSome_getField_fixLikelihoodField, isSome_getField_fixArrayField,
      isSome_getField_fixArrayField]
    exact (hasAllFive_pres j h5).2.2.2.2
  refine ⟨?_, ?_, ?_⟩
  · show hasAllFive (normalizeSuccess_v1 p j) = true
    simp only [normalizeSuccess_v1]
    rw [confStep_hasAllFive, hasAllFive_fixLikelihoodField, hasAllFive_fixArrayField,
      hasAllFive_fixArrayField]
    exact h5
  · show ∃ q, (normalizeSuccess_v1 p j).getField "likelihood" = some (.num q)
    simp only [normalizeSuccess_v1]
    rw [confStep_getField_likelihood]
    exact getField_fixLikelihoodField_num _ _ hpresL
  · show ∃ s, (normalizeSuccess_v1 p j).getField "confidence" = some (.str s) ∧ _
    simp only [normalizeSuccess_v1]
    exact confStep_confidence _ _ hpresC (confFromVerification_mem _)

theorem fallbackConf_v0_mem (p : Patterns) :
    (if 15 < p.rapidCommits then "high"
      else if 7 < p.rapidCommits then "medium" else "low") = "high" ∨
    (if 15 < p.rapidCommits then "high"
      else if 7 < p.rapidCommits then "medium" else "low") = "medium" ∨
    (if 15 < p.rapidCommits then "high"
      else if 7 < p.rapidCommits then "medium" else "low") = "low" := by
  split
  · exact Or.inl rfl
  · split
    · exact Or.inr (Or.inl rfl)
    · exact Or.inr (Or.inr rfl)

theorem fallbackOpinion_v0_bounds (p : Patterns) (c : Int) :
    ∃ q, (fallbackAnalysis_v0 p c).getField "likelihood" = some (.num q) ∧
      0 ≤ q ∧ q ≤ 100 := by
  refine ⟨_, fallbackAnalysis_v0_likelihood p c, ?_, min_le_right _ _⟩
  apply le_min
  · have b1 : (0 : ℚ) ≤ 3 / 10 * (p.verificationPercentage : ℚ) := by positivity
    have b2 : (0 : ℚ) ≤ 2 * (p.rapidCommits : ℚ) := by positivity
    have b3 : (0 : ℚ) ≤ (if 50 < p.totalCommits then (10 : ℚ) else 0) := by
      split <;> norm_num
    linarith
  · norm_num

theorem fallbackOpinion_v1_bounds (p : Patterns) (c : Int) :
    ∃ q, (fallbackAnalysis_v1 p c).getField "likelihood" = some (.num q) ∧
      0 ≤ q ∧ q ≤ 100 ∧ ∃ n : ℕ, q = (n : ℚ) := by
  refine ⟨_, fallbackAnalysis_v1_likelihood p c, ?_, min_le_right _ _, ?_⟩
  · apply le_min
    · have b1 : (0 : ℚ) ≤ (p.verificationPercentage : ℚ) := by positivity
      have b3 : (0 : ℚ) ≤ (if 10 < p.rapidCommits then (15 : ℚ) else 0) := by
        split <;> norm_num
      linarith
    · norm_num
  · refine ⟨min (p.verificationPercentage + (if 10 < p.rapidCommits then 15 else 0)) 100, ?_⟩
    rw [Nat.cast_min, Nat.cast_add]
    by_cases hrc : 10 < p.rapidCommits <;> simp [hrc]

/-- The three structural-validity conjuncts hold of every version-0 fallback
opinion. -/
theorem fallbackOpinion_v0_spec (p : Patterns) (c : Int) :
    hasAllFive (fallbackAnalysis_v0 p c) = true ∧
    (∃ q, (fallbackAnalysis_v0 p c).getField "likelihood" = some (.num q)) ∧
    (∃ s, (fallbackAnalysis_v0 p c).getField "confidence" = some (.str s) ∧
      (s = "high" ∨ s = "medium" ∨ s = "low")) := by
  refine ⟨rfl, ⟨_, fallbackAnalysis_v0_likelihood p c⟩,
    ⟨_, fallbackAnalysis_v0_confidence p c, fallbackConf_v0_mem p⟩⟩

theorem fallbackOpinion_v1_spec (p : Patterns) (c : Int) :
    hasAllFive (fallbackAnalysis_v1 p c) = true ∧
    (∃ q, (fallbackAnalysis_v1 p c).getField "likelihood" = some (.num q)) ∧
    (∃ s, (fallbackAnalysis_v1 p c).getField "confidence" = some (.str s) ∧
      (s = "high" ∨ s = "medium" ∨ s = "low")) := by
  refine ⟨rfl, ⟨_, fallbackAnalysis_v1_likelihood p c⟩,
    ⟨_, fallbackAnalysis_v1_confidence p c, confFromVerification_mem p⟩⟩

theorem normalizeSuccess_v0_likelihood_of_num (p : Patterns) (j : Json) (q : ℚ)
    (h : j.getField "likelihood" = some (.num q)) :
    (normalizeSuccess_v0 p j).getField "likelihood" = some (.num q) := by
  have h1 : (fixArrayField (fixArrayField j "keyFindings") "recommendations").getField
      "likelihood" = some (.num q) := by
    rw [getField_fixArrayField_ne _ (by decide), getField_fixArrayField_ne _ (by decide)]
    exact h
  have h2 : fixLikelihoodField (fixArrayField (fixArrayField j "keyFindings")
      "recommendations") (heuristicLikelihood_v0 p) =
      fixArrayField (fixArrayField j "keyFindings") "recommendations" := by
    unfold fixLikelihoodField
    rw [h1]
    simp [optIsNum]
  simp only [normalizeSuccess_v0]
  rw [h2, confStep_getField_likelihood]
  exact h1

theorem normalizeSuccess_v1_likelihood_of_num (p : Patterns) (j : Json) (q : ℚ)
    (h : j.getField "likelihood" = some (.num q)) :
    (normalizeSuccess_v1 p j).getField "likelihood" = some (.num q) := by
  have h1 : (fixArrayField (fixArrayField j "keyFindings") "recommendations").getField
      "likelihood" = some (.num q) := by
    rw [getField_fixArrayField_ne _ (by decide), getField_fixArrayField_ne _ (by decide)]
    exact h
  have h2 : fixLikelihoodField (fixArrayField (fixArrayField j "keyFindings")
      "recommendations") (heuristicLikelihood_v1 p) =
      fixArrayField (fixArrayField j "keyFindings") "recommendations" := by
    unfold fixLikelihoodField
    rw [h1]
    simp [optIsNum]
  simp only [normalizeSuccess_v1]
  rw [h2, confStep_getField_likelihood]
  exact h1

/-- True exactly when the normalizer resolves to the deterministic fallback:
the call failed, parsing threw, or a required field is missing. -/
def takesFallback (parsed : Option Json) : Bool :=
  match parsed with
  | none => true
  | some j => !hasAllFive j

/-- C1 (amended): for every parse outcome (hence every raw AI response text)
and every call failure, both normalizers return an opinion object with all
five fields present, a numeric `likelihood`, and `confidence` one of
`high`/`medium`/`low`, and they never throw; on every fallback path the
likelihood lies in `[0, 100]` (and is a whole number in version 1, while
version 0 can produce a fractional value); on a successful parse with all
five fields a numeric `likelihood` is passed through unchanged, so it is
not in general confined to `[0, 100]`. -/
theorem claim_C1 (parsed : Option Json) (p : Patterns) (c : Int) :
    (hasAllFive (analyzeWithGemini_v0 p c parsed) = true ∧
     (∃ q, (analyzeWithGemini_v0 p c parsed).getField "likelihood" = some (.num q)) ∧
     (∃ s, (analyzeWithGemini_v0 p c parsed).getField "confidence" = some (.str s) ∧
       (s = "high" ∨ s = "medium" ∨ s = "low")) ∧
     (takesFallback parsed = true →
       ∃ q, (analyzeWithGemini_v0 p c parsed).getField "likelihood" = some (.num q) ∧
         0 ≤ q ∧ q ≤ 100) ∧
     (∀ (j : Json) (q : ℚ), parsed = some j → hasAllFive j = true →
       j.getField "likelihood" = some (.num q) →
       (analyzeWithGemini_v0 p c parsed).getField "likelihood" = some (.num q))) ∧
    (hasAllFive (analyzeWithGemini_v1 p c parsed) = true ∧
     (∃ q, (analyzeWithGemini_v1 p c parsed).getField "likelihood" = some (.num q)) ∧
     (∃ s, (analyzeWithGemini_v1 p c parsed).getField "confidence" = some (.str s) ∧
       (s = "high" ∨ s = "medium" ∨ s = "low")) ∧
     (takesFallback parsed = true →
       ∃ q, (analyzeWithGemini_v1 p c parsed).getField "likelihood" = some (.num q) ∧
         0 ≤ q ∧ q ≤ 100 ∧ ∃ n : ℕ, q = (n : ℚ)) ∧
     (∀ (j : Json) (q : ℚ), parsed = some j → hasAllFive j = true →
       j.getField "likelihood" = some (.num q) →
       (analyzeWithGemini_v1 p c parsed).getField "likelihood" = some (.num q))) := by
  constructor
  · match parsed with
    | none =>
        obtain ⟨f1, f2, f3⟩ := fallbackOpinion_v0_spec p c
        exact ⟨f1, f2, f3, fun _ => fallbackOpinion_v0_bounds p c,
          fun j q hj => by cases hj⟩
    | some j =>
        by_cases h5 : hasAllFive j = true
        · have hred : analyzeWithGemini_v0 p c (some j) = normalizeSuccess_v0 p j := by
            simp only [analyzeWithGemini_v0]
            rw [if_pos h5]
          obtain ⟨f1, f2, f3⟩ := successOpinion_v0_spec p j h5
          rw [hred]
          refine ⟨f1, f2, f3, fun hf => ?_, fun j' q hj' h5' hq => ?_⟩
          · exfalso
            simp [takesFallback, h5] at hf
          · cases hj'
            exact normalizeSuccess_v0_likelihood_of_num p j q hq
        · have hred : analyzeWithGemini_v0 p c (some j) = fallbackAnalysis_v0 p c := by
            simp only [analyzeWithGemini_v0]
            rw [if_neg h5]
          obtain ⟨f1, f2, f3⟩ := fallbackOpinion_v0_spec p c
          rw [hred]
          exact ⟨f1, f2, f3, fun _ => fallbackOpinion_v0_bounds p c,
            fun j' q hj' h5' hq => by cases hj'; exact absurd h5' h5⟩
  · match parsed with
    | none =>
        obtain ⟨f1, f2, f3⟩ := fallbackOpinion_v1_spec p c
        exact ⟨f1, f2, f3, fun _ => fallbackOpinion_v1_bounds p c,
          fun j q hj => by cases hj⟩
    | some j =>
        by_cases h5 : hasAllFive j = true
        · have hred : analyzeWithGemini_v1 p c (some j) = normalizeSuccess_v1 p j := by
            simp only [analyzeWithGemini_v1]
            rw [if_pos h5]
          obtain ⟨f1, f2, f3⟩ := successOpinion_v1_spec p j h5
          rw [hred]
          refine ⟨f1, f2, f3, fun hf => ?_, fun j' q hj' h5' hq => ?_⟩
          · exfalso
            simp [takesFallback, h5] at hf
          · cases hj'
            exact normalizeSuccess_v1_likelihood_of_num p j q hq
        · have hred : analyzeWithGemini_v1 p c (some j) = fallbackAnalysis_v1 p c := by
            simp only [analyzeWithGemini_v1]
            rw [if_neg h5]
          obtain ⟨f1, f2, f3⟩ := fallbackOpinion_v1_spec p c
          rw [hred]
          exact ⟨f1, f2, f3, fun _ => fallbackOpinion_v1_bounds p c,
            fun j' q hj' h5' hq => by cases hj'; exact absurd h5' h5⟩

theorem claim_C1_witness :
    takesFallback none = true ∧
    (∃ q, (analyzeWithGemini_v0 ⟨12, [], [], 17, 20, 85⟩ 0 none).getField "likelihood" =
      some (.num q) ∧ 0 ≤ q ∧ q ≤ 100) ∧
    (∃ q, (analyzeWithGemini_v1 ⟨12, [], [], 17, 20, 85⟩ 0 none).getField "likelihood" =
      some (.num q) ∧ 0 ≤ q ∧ q ≤ 100 ∧ ∃ n : ℕ, q = (n : ℚ)) :=
  ⟨rfl, (claim_C1 none ⟨12, [], [], 17, 20, 85⟩ 0).1.2.2.2.1 rfl,
    (claim_C1 none ⟨12, [], [], 17, 20, 85⟩ 0).2.2.2.2.1 rfl⟩

/-- A concrete well-formed parsed response whose numeric likelihood is 150;
the normalizer returns it unchanged, outside `[0, 100]`. -/
def largeLikelihoodResponse : Json :=
  Json.obj [("summary", .str "s"), ("likelihood", .num 150),
    ("keyFindings", .arr [.str "f"]), ("recommendations", .arr [.str "r"]),
    ("confidence", .str "high")]

theorem claim_C1_counterexample :
    (analyzeWithGemini_v0 ⟨0, [], [], 0, 0, 0⟩ 0
        (some largeLikelihoodResponse)).getField "likelihood" = some (.num 150) ∧
    (analyzeWithGemini_v1 ⟨0, [], [], 0, 0, 0⟩ 0
        (some largeLikelihoodResponse)).getField "likelihood" = some (.num 150) ∧
    ¬ ((150 : ℚ) ≤ 100) :=
  ⟨rfl, rfl, by decide⟩
